import Mathlib

/-!
Shallow embedding of the request-broker core of the eassi gateway backend
(`src/requests/requests.service.ts` and the verify controller), together with
theorems checking the specification's claims about it.

Repositories (TypeORM) are modelled as lists searched front-to-back
(`findOne` returns the first match).  JavaScript `split(':')` is embedded as
an explicit recursive split on the colon character with identical semantics
for a one-character separator.
-/

namespace Eassi

/-- Organization entity: public uuid plus the shared signing secret.
Modelled from the spec: the entity file is not in the excerpt; the spec's data
model gives exactly these two fields used by the broker. -/
structure Organization where
  uuid : String
  sharedSecret : String
deriving DecidableEq, Repr

/-- CredentialType entity: a type name scoped to one organization.
Modelled from the spec: the entity file is not in the excerpt; the broker
resolves a type by the (organization, type-name) pair.  The eager-loaded
`jolocomType` relation does not affect any value compared here and is kept as
an opaque optional descriptor. -/
structure CredentialType where
  organization : Organization
  type : String
  jolocomType : Option String
deriving DecidableEq, Repr

/-- CredentialVerifyRequest entity (fields assigned in
`decodeVerifyRequestToken`; `uuid` is server-generated at save time). -/
structure CredentialVerifyRequest where
  uuid : String
  requestor : Organization
  type : CredentialType
  callbackUrl : String
deriving DecidableEq, Repr

/-- CredentialIssueRequest entity: the verify fields plus the opaque `data`
payload copied verbatim from the token. -/
structure CredentialIssueRequest where
  uuid : String
  requestor : Organization
  type : CredentialType
  callbackUrl : String
  data : String
deriving DecidableEq, Repr

/-- Modelled from the spec: the static `requestType` constant of the
verify-request entity (the entity file is not in the excerpt; the spec fixes
the tag `"verify"`). -/
def CredentialVerifyRequest.requestType : String := "verify"

/-- Modelled from the spec: the static `requestType` constant of the
issue-request entity (tag `"issue"`). -/
def CredentialIssueRequest.requestType : String := "issue"

/-- The two request repositories of `RequestsService`, as lists in insertion
order. -/
structure Store where
  verifyRequests : List CredentialVerifyRequest
  issueRequests : List CredentialIssueRequest
deriving DecidableEq, Repr

/-- Embedding of JavaScript `s.split(':')` on the character list: accumulate
the current segment (reversed) and cut at every colon.  `split` always yields
at least one (possibly empty) segment. -/
def splitColonAux : List Char → List Char → List (List Char)
  | [], acc => [acc.reverse]
  | c :: cs, acc =>
    if c = ':' then acc.reverse :: splitColonAux cs []
    else splitColonAux cs (c :: acc)

/-- JavaScript `requestId.split(':')`. -/
def jsSplitColon (s : String) : List String :=
  (splitColonAux s.data []).map String.mk

/-- JavaScript falsiness of the destructured `uuid` component: `undefined`
(missing component) and the empty string are falsy. -/
def jsFalsy : Option String → Bool
  | none => true
  | some s => s.isEmpty

/-- `findVerifyRequestByIdentifier`: `verifyRequestsRepository.findOne({ uuid })`. -/
def findVerifyRequestByIdentifier (st : Store) (uuid : String) :
    Option CredentialVerifyRequest :=
  st.verifyRequests.find? (fun r => decide (r.uuid = uuid))

/-- `findIssueRequestByIdentifier`: `issueRequestsRepository.findOne({ uuid })`. -/
def findIssueRequestByIdentifier (st : Store) (uuid : String) :
    Option CredentialIssueRequest :=
  st.issueRequests.find? (fun r => decide (r.uuid = uuid))

/-- `findVerifyRequestByRequestId`: destructure the first two components of
`requestId.split(':')`; null unless the tag is `"verify"` and the uuid
component is truthy. -/
def findVerifyRequestByRequestId (st : Store) (requestId : String) :
    Option CredentialVerifyRequest :=
  let parts := jsSplitColon requestId
  let ty := parts.headD ""
  let uuid := parts.get? 1
  if ty ≠ CredentialVerifyRequest.requestType ∨ jsFalsy uuid then none
  else findVerifyRequestByIdentifier st (uuid.getD "")

/-- `findIssueRequestByRequestId`: same destructuring with the `"issue"` tag. -/
def findIssueRequestByRequestId (st : Store) (requestId : String) :
    Option CredentialIssueRequest :=
  let parts := jsSplitColon requestId
  let ty := parts.headD ""
  let uuid := parts.get? 1
  if ty ≠ CredentialIssueRequest.requestType ∨ jsFalsy uuid then none
  else findIssueRequestByIdentifier st (uuid.getD "")

/-- The combined lookup returns either kind of record. -/
inductive FoundRequest where
  | verify (r : CredentialVerifyRequest)
  | issue (r : CredentialIssueRequest)
deriving DecidableEq, Repr

/-- `findRequestByRequestId`: destructure the first two split components,
null if either is falsy, then dispatch on the tag; unknown tags give null. -/
def findRequestByRequestId (st : Store) (requestId : String) :
    Option FoundRequest :=
  let parts := jsSplitColon requestId
  let ty := parts.headD ""
  let uuid := parts.get? 1
  if jsFalsy (parts.get? 0) ∨ jsFalsy uuid then none
  else if ty = CredentialVerifyRequest.requestType then
    (findVerifyRequestByIdentifier st (uuid.getD "")).map FoundRequest.verify
  else if ty = CredentialIssueRequest.requestType then
    (findIssueRequestByIdentifier st (uuid.getD "")).map FoundRequest.issue
  else none

/-- The JSON payload of a request token as used by the service: the `iss` and
`iat` registered claims plus the request-data fields read by
`decodeVerifyRequestToken` / `decodeIssueRequestToken` (`type`, `callbackUrl`,
`data`; the verify flow simply ignores `data`). -/
structure JwtPayload where
  iss : Option String
  iat : Option Nat
  type : String
  callbackUrl : String
  data : String
deriving DecidableEq, Repr

/-- The decoded body of a parseable token: a JSON object (the payload) or a
bare JSON string (the `typeof request === 'string'` case in the service). -/
inductive JwtBody where
  | obj (p : JwtPayload)
  | str (s : String)
deriving DecidableEq, Repr

/-- Symbolic model of the HMAC signature: the signature produced with
`secret` over `body`.  Verification under a given secret succeeds exactly
when the token's signature was produced with that same secret over the
token's own body (a perfect MAC with no collisions). -/
structure Sig where
  secret : String
  body : JwtBody
deriving DecidableEq, Repr

/-- A request token: either unparseable (`jsonwebtoken.decode` returns null)
or a body together with its signature. -/
inductive Jwt where
  | malformed
  | token (body : JwtBody) (sig : Sig)
deriving DecidableEq, Repr

/-- The truthy issuer of a decoded body: `decoded.iss` must exist and be a
non-empty string (`!decoded.iss` in the service); a string body has no `iss`
property. -/
def issOf : JwtBody → Option String
  | .obj p =>
    match p.iss with
    | some s => if s.isEmpty then none else some s
    | none => none
  | .str _ => none

/-- `const JWT_MAX_AGE = '300s'`, in seconds. -/
def JWT_MAX_AGE : Nat := 300

/-- The distinct failure conditions inside the `try` block of
`decodeAndVerifyJwt`, before the `catch` collapses them. -/
inductive JwtFailure where
  | malformed
  | unknownIssuer
  | badSignature
  | noIat
  | expired
  | stringPayload
deriving DecidableEq, Repr

/-- The `InvalidRequestJWT extends Error` class thrown by the `catch`. -/
structure InvalidRequestJWT where
  message : String
deriving DecidableEq, Repr

/-- The body of the `try` block of `decodeAndVerifyJwt`: decode and extract a
truthy issuer, look the organization up by uuid (`findOneOrFail`), verify the
signature with that organization's secret and the 300-second `maxAge`
(`jsonwebtoken.verify` rejects when `now ≥ iat + maxAge`, and requires a
numeric `iat` when `maxAge` is set), and reject string payloads. -/
def decodeAndVerifyJwtInner (orgs : List Organization) (jwt : Jwt) (now : Nat) :
    Except JwtFailure (JwtPayload × Organization) :=
  match jwt with
  | .malformed => .error .malformed
  | .token body sig =>
    match issOf body with
    | none => .error .malformed
    | some iss =>
      match orgs.find? (fun o => decide (o.uuid = iss)) with
      | none => .error .unknownIssuer
      | some requestor =>
        if sig = ⟨requestor.sharedSecret, body⟩ then
          match body with
          | .str _ => .error .stringPayload
          | .obj p =>
            match p.iat with
            | none => .error .noIat
            | some iat =>
              if now ≥ iat + JWT_MAX_AGE then .error .expired
              else .ok (p, requestor)
        else .error .badSignature

/-- `decodeAndVerifyJwt`: the whole flow sits in one `try`; the `catch`
rethrows every failure as the single generic
`InvalidRequestJWT('Could not decode request JWT')`. -/
def decodeAndVerifyJwt (orgs : List Organization) (jwt : Jwt) (now : Nat) :
    Except InvalidRequestJWT (JwtPayload × Organization) :=
  match decodeAndVerifyJwtInner orgs jwt now with
  | .ok r => .ok r
  | .error _ => .error ⟨"Could not decode request JWT"⟩

/-- Failures of the token-accepting operations: the generic JWT rejection, or
the uncaught `EntityNotFoundError` of `typesRepository.findOneOrFail` (the
type lookup sits outside the `try` block). -/
inductive DecodeError where
  | invalidJwt (e : InvalidRequestJWT)
  | typeNotFound
deriving DecidableEq, Repr

/-- `decodeVerifyRequestToken`: authenticate the token, resolve the
CredentialType by (requestor, payload type), construct and save a new
VerifyRequest.  The repository save (which assigns the server-generated
`uuid`) is modelled by appending a record carrying the supplied fresh uuid;
the unchanged store is returned alongside every failure, since every throw
happens before the save. -/
def decodeVerifyRequestToken (orgs : List Organization)
    (types : List CredentialType) (st : Store) (jwt : Jwt) (now : Nat)
    (freshUuid : String) :
    Except DecodeError CredentialVerifyRequest × Store :=
  match decodeAndVerifyJwt orgs jwt now with
  | .error e => (.error (.invalidJwt e), st)
  | .ok (request, requestor) =>
    match types.find? (fun t =>
        decide (t.organization = requestor ∧ t.type = request.type)) with
    | none => (.error .typeNotFound, st)
    | some ty =>
      let verifyRequest : CredentialVerifyRequest :=
        { uuid := freshUuid
          requestor := requestor
          type := ty
          callbackUrl := request.callbackUrl }
      (.ok verifyRequest,
        { st with verifyRequests := st.verifyRequests ++ [verifyRequest] })

/-- `decodeIssueRequestToken`: the identical flow on the issue repository,
additionally copying the payload's `data` field verbatim. -/
def decodeIssueRequestToken (orgs : List Organization)
    (types : List CredentialType) (st : Store) (jwt : Jwt) (now : Nat)
    (freshUuid : String) :
    Except DecodeError CredentialIssueRequest × Store :=
  match decodeAndVerifyJwt orgs jwt now with
  | .error e => (.error (.invalidJwt e), st)
  | .ok (request, requestor) =>
    match types.find? (fun t =>
        decide (t.organization = requestor ∧ t.type = request.type)) with
    | none => (.error .typeNotFound, st)
    | some ty =>
      let issueRequest : CredentialIssueRequest :=
        { uuid := freshUuid
          requestor := requestor
          type := ty
          callbackUrl := request.callbackUrl
          data := request.data }
      (.ok issueRequest,
        { st with issueRequests := st.issueRequests ++ [issueRequest] })

/-- Outcome status values.  Modelled from the spec: the enum file is not in
the excerpt; the spec's outcome token carries a success or failure status. -/
inductive ResponseStatus where
  | success
  | failure
deriving DecidableEq, Repr

/-- Modelled from the spec: `encodeVerifyRequestResponse` (not in the
excerpt) produces a broker-signed compact token embedding
`{status, connectorName, data}` for the given request; modelled as the tuple
of its inputs. -/
structure OutcomeToken where
  requestUuid : String
  status : ResponseStatus
  connectorName : String
  data : String
deriving DecidableEq, Repr

/-- Modelled from the spec: the derived `requestId` of a verify request is
`"<requestType>:<uuid>"`. -/
def CredentialVerifyRequest.requestId (vr : CredentialVerifyRequest) : String :=
  CredentialVerifyRequest.requestType ++ ":" ++ vr.uuid

/-- Modelled from the spec: `encodeVerifyRequestResponse(verifyRequest,
status, connectorName, data)` delegates to the token codec with the broker's
key; only the embedded outcome matters here. -/
def encodeVerifyRequestResponse (vr : CredentialVerifyRequest)
    (status : ResponseStatus) (connectorName : String) (data : String) :
    OutcomeToken :=
  { requestUuid := vr.uuid
    status := status
    connectorName := connectorName
    data := data }

/-- Modelled from the spec: the notification pushed by
`gateway.sendRedirectResponse(requestId, status, url)` to the session keyed
by `requestId`. -/
structure Notification where
  requestId : String
  status : ResponseStatus
  url : String × OutcomeToken
deriving DecidableEq, Repr

/-- The connector's disclosure-handling step either returns result data or
throws (modelled as an error message). -/
abbrev DisclosureResult := Except String String

/-- `VerifyController.handleCredentialVerifyDisclosure` (verify controller):
awaits `connectorService.handleVerifyCredentialDisclosure`, then encodes a
success-status outcome token and notifies the session with
`callbackUrl + responseToken`.  There is no try/catch: a connector failure
propagates out of the handler, and the returned error carries no
notification. -/
def handleCredentialVerifyDisclosure (vr : CredentialVerifyRequest)
    (connectorName : String) (disclosure : DisclosureResult) :
    Except String Notification :=
  match disclosure with
  | .error e => .error e
  | .ok data =>
    let responseToken :=
      encodeVerifyRequestResponse vr ResponseStatus.success connectorName data
    .ok
      { requestId := vr.requestId
        status := ResponseStatus.success
        url := (vr.callbackUrl, responseToken) }

/-! ### Helper lemmas about the split embedding and list lookup -/

theorem splitColonAux_of_no_colon (l : List Char) (acc : List Char)
    (h : ∀ c ∈ l, c ≠ ':') : splitColonAux l acc = [acc.reverse ++ l] := by
  induction l generalizing acc with
  | nil => simp [splitColonAux]
  | cons c cs ih =>
    have hc : c ≠ ':' := h c (List.mem_cons_self c cs)
    have hcs : ∀ x ∈ cs, x ≠ ':' := fun x hx => h x (List.mem_cons_of_mem c hx)
    simp [splitColonAux, hc, ih _ hcs]

theorem splitColonAux_append (l₁ l₂ : List Char) (acc : List Char)
    (h : ∀ c ∈ l₁, c ≠ ':') :
    splitColonAux (l₁ ++ ':' :: l₂) acc =
      (acc.reverse ++ l₁) :: splitColonAux l₂ [] := by
  induction l₁ generalizing acc with
  | nil => simp [splitColonAux]
  | cons c cs ih =>
    have hc : c ≠ ':' := h c (List.mem_cons_self c cs)
    have hcs : ∀ x ∈ cs, x ≠ ':' := fun x hx => h x (List.mem_cons_of_mem c hx)
    simp [splitColonAux, hc, ih _ hcs]

/-- A string without colons splits into itself. -/
theorem jsSplitColon_no_colon (s : String) (h : ∀ c ∈ s.data, c ≠ ':') :
    jsSplitColon s = [s] := by
  simp [jsSplitColon, splitColonAux_of_no_colon s.data [] h]

/-- Splitting `t ++ ":" ++ u` for colon-free `t` and `u` yields the two
components. -/
theorem jsSplitColon_pair (t u : String) (ht : ∀ c ∈ t.data, c ≠ ':')
    (hu : ∀ c ∈ u.data, c ≠ ':') : jsSplitColon (t ++ ":" ++ u) = [t, u] := by
  have hdata : (t ++ ":" ++ u).data = t.data ++ ':' :: u.data := by
    simp [String.data_append]
  simp [jsSplitColon, hdata, splitColonAux_append t.data u.data [] ht,
    splitColonAux_of_no_colon u.data [] hu]

/-- Splitting `t ++ ":" ++ u ++ ":" ++ r` for colon-free `t` and `u` puts the
two leading components before whatever `r` splits into. -/
theorem jsSplitColon_triple (t u r : String) (ht : ∀ c ∈ t.data, c ≠ ':')
    (hu : ∀ c ∈ u.data, c ≠ ':') :
    jsSplitColon (t ++ ":" ++ u ++ ":" ++ r) = t :: u :: jsSplitColon r := by
  have hdata : (t ++ ":" ++ u ++ ":" ++ r).data =
      t.data ++ ':' :: (u.data ++ ':' :: r.data) := by
    simp [String.data_append]
  simp [jsSplitColon, hdata, splitColonAux_append t.data _ [] ht,
    splitColonAux_append u.data r.data [] hu]

/-- A lookup skips a prefix on which the predicate is everywhere false. -/
theorem find?_append_of_false {α : Type} (p : α → Bool) (l₁ l₂ : List α)
    (h : ∀ a ∈ l₁, p a = false) : (l₁ ++ l₂).find? p = l₂.find? p := by
  rw [List.find?_append]
  have : l₁.find? p = none := List.find?_eq_none.mpr (by
    intro a ha
    simp [h a ha])
  simp [this]

/-- `jsSplitColon` never returns the empty list (JS `split` always yields at
least one segment). -/
theorem jsSplitColon_ne_nil (s : String) : jsSplitColon s ≠ [] := by
  have : ∀ (l acc : List Char), splitColonAux l acc ≠ [] := by
    intro l
    induction l with
    | nil => intro acc; simp [splitColonAux]
    | cons c cs ih =>
      intro acc
      by_cases hc : c = ':'
      · simp [splitColonAux, hc]
      · simp [splitColonAux, hc]
        exact ih _
  simp [jsSplitColon]
  exact this s.data []

/-! ### Sample fixtures used by witnesses and counterexamples -/

/-- A sample organization. -/
def orgA : Organization := { uuid := "org-a", sharedSecret := "secret-a" }

/-- A second organization with a distinct secret. -/
def orgB : Organization := { uuid := "org-b", sharedSecret := "secret-b" }

/-- A third organization sharing `orgA`'s secret. -/
def orgC : Organization := { uuid := "org-c", sharedSecret := "secret-a" }

/-- A credential type owned by `orgA`. -/
def tyA : CredentialType :=
  { organization := orgA, type := "passport", jolocomType := none }

/-- A credential type owned by `orgC`. -/
def tyC : CredentialType :=
  { organization := orgC, type := "passport", jolocomType := none }

/-- A sample verify request stored under uuid `"a"`. -/
def vrA : CredentialVerifyRequest :=
  { uuid := "a", requestor := orgA, type := tyA, callbackUrl := "https://cb" }

/-- The empty store. -/
def emptyStore : Store := { verifyRequests := [], issueRequests := [] }

/-- A sample payload naming `orgA` as issuer. -/
def payloadA : JwtPayload :=
  { iss := some "org-a", iat := some 0, type := "passport",
    callbackUrl := "https://cb", data := "sample" }

/-- A sample token carrying `payloadA`, correctly signed with `orgA`'s
secret. -/
def jwtA : Jwt :=
  Jwt.token (JwtBody.obj payloadA)
    { secret := "secret-a", body := JwtBody.obj payloadA }

/-! ### Claim theorems -/

/-- Claim C10: whenever the tag segment (the text before the first colon) is
`"verify"`, the combined lookup `findRequestByRequestId` agrees with the
tag-specific `findVerifyRequestByRequestId`, and whenever it is `"issue"` it
agrees with `findIssueRequestByRequestId`: the three parsers of the composite
identifier never diverge. -/
theorem findRequestByRequestId_agrees_with_tagged (st : Store) (s : String) :
    ((jsSplitColon s).headD "" = CredentialVerifyRequest.requestType →
      findRequestByRequestId st s =
        (findVerifyRequestByRequestId st s).map FoundRequest.verify) ∧
    ((jsSplitColon s).headD "" = CredentialIssueRequest.requestType →
      findRequestByRequestId st s =
        (findIssueRequestByRequestId st s).map FoundRequest.issue) := by
  obtain ⟨x, rest, hp⟩ : ∃ x rest, jsSplitColon s = x :: rest := by
    cases hq : jsSplitColon s with
    | nil => exact absurd hq (jsSplitColon_ne_nil s)
    | cons x rest => exact ⟨x, rest, rfl⟩
  have hv : "verify".isEmpty = false := by decide
  have hi : "issue".isEmpty = false := by decide
  have hne : ("issue" : String) ≠ "verify" := by decide
  constructor
  · intro h
    rw [hp] at h
    simp at h
    subst h
    cases rest with
    | nil =>
      simp [findRequestByRequestId, findVerifyRequestByRequestId, hp,
        CredentialVerifyRequest.requestType, jsFalsy, hv]
    | cons u rest2 =>
      by_cases hemp : u.isEmpty
      · simp [findRequestByRequestId, findVerifyRequestByRequestId, hp,
          CredentialVerifyRequest.requestType, jsFalsy, hv, hemp]
      · simp [findRequestByRequestId, findVerifyRequestByRequestId, hp,
          CredentialVerifyRequest.requestType, jsFalsy, hv, hemp]
  · intro h
    rw [hp] at h
    simp at h
    subst h
    cases rest with
    | nil =>
      simp [findRequestByRequestId, findIssueRequestByRequestId, hp,
        CredentialVerifyRequest.requestType,
        CredentialIssueRequest.requestType, jsFalsy, hi, hne]
    | cons u rest2 =>
      by_cases hemp : u.isEmpty
      · simp [findRequestByRequestId, findIssueRequestByRequestId, hp,
          CredentialVerifyRequest.requestType,
          CredentialIssueRequest.requestType, jsFalsy, hi, hne, hemp]
      · simp [findRequestByRequestId, findIssueRequestByRequestId, hp,
          CredentialVerifyRequest.requestType,
          CredentialIssueRequest.requestType, jsFalsy, hi, hne, hemp]

/-- Closed witness for C10 at a concrete store and identifier. -/
theorem findRequestByRequestId_agrees_with_tagged_witness :
    findRequestByRequestId { verifyRequests := [vrA], issueRequests := [] }
        "verify:a" =
      (findVerifyRequestByRequestId
          { verifyRequests := [vrA], issueRequests := [] } "verify:a").map
        FoundRequest.verify :=
  (findRequestByRequestId_agrees_with_tagged
      { verifyRequests := [vrA], issueRequests := [] } "verify:a").1
    (by decide)

/-- The combined lookup's outcome expressed on the two leading components of
the identifier: not-found for a falsy tag or uuid component or an
unrecognized tag, otherwise the store lookup selected by the tag applied to
the uuid component. -/
def componentLookup (st : Store) (t u : String) : Option FoundRequest :=
  if t = "" ∨ u = "" then none
  else if t = CredentialVerifyRequest.requestType then
    (findVerifyRequestByIdentifier st u).map FoundRequest.verify
  else if t = CredentialIssueRequest.requestType then
    (findIssueRequestByIdentifier st u).map FoundRequest.issue
  else none

/-- The combined lookup only reads the first two split components. -/
theorem findRequestByRequestId_of_split (st : Store) (s t u : String)
    (rest : List String) (hp : jsSplitColon s = t :: u :: rest) :
    findRequestByRequestId st s = componentLookup st t u := by
  by_cases hts : t = ""
  · subst hts
    simp [findRequestByRequestId, componentLookup, hp, jsFalsy,
      String.isEmpty_iff]
  · by_cases hus : u = ""
    · subst hus
      simp [findRequestByRequestId, componentLookup, hp, jsFalsy,
        String.isEmpty_iff, hts]
    · simp [findRequestByRequestId, componentLookup, hp, jsFalsy,
        String.isEmpty_iff, hts, hus]

/-- Claim C7 counterexample: the uuid segment used for the lookup is NOT
everything after the first delimiter.  On the store holding one verify record
with uuid `"a"`, the input `"verify:a:b"` returns that record (the code looks
up the second split component `"a"`), although looking up the text after the
first delimiter, `"a:b"`, finds nothing — so the claim's reading would have
returned not-found. -/
theorem findRequestByRequestId_after_first_delimiter_cex :
    findRequestByRequestId { verifyRequests := [vrA], issueRequests := [] }
        "verify:a:b" = some (FoundRequest.verify vrA) ∧
    findVerifyRequestByIdentifier
        { verifyRequests := [vrA], issueRequests := [] } "a:b" = none := by
  constructor
  · rfl
  · rfl

/-- Claim C7 (amended): `findRequestByRequestId` never throws (it is a total
function into `Option`), and its result is determined by the first two split
components: for colon-free `t` and `u`, both `t ++ ":" ++ u` and
`t ++ ":" ++ u ++ ":" ++ r` (any trailing `r`) resolve to not-found when the
tag `t` is unrecognized or empty or the uuid component `u` is empty, and
otherwise to the lookup of `u` — the component between the first and second
delimiter, not everything after the first delimiter — in the store selected
by `t`; a colon-free input resolves to not-found. -/
theorem findRequestByRequestId_uses_second_component (st : Store)
    (t u r s : String) (ht : ∀ c ∈ t.data, c ≠ ':')
    (hu : ∀ c ∈ u.data, c ≠ ':') (hs : ∀ c ∈ s.data, c ≠ ':') :
    findRequestByRequestId st (t ++ ":" ++ u) = componentLookup st t u ∧
    findRequestByRequestId st (t ++ ":" ++ u ++ ":" ++ r) =
      componentLookup st t u ∧
    findRequestByRequestId st s = none := by
  refine ⟨?_, ?_, ?_⟩
  · exact findRequestByRequestId_of_split st _ t u []
      (jsSplitColon_pair t u ht hu)
  · exact findRequestByRequestId_of_split st _ t u (jsSplitColon r)
      (jsSplitColon_triple t u r ht hu)
  · simp [findRequestByRequestId, jsSplitColon_no_colon s hs, jsFalsy]

/-- Closed witness for the amended C7 at concrete strings, showing both a
successful dispatch and the ignored trailing segment. -/
theorem findRequestByRequestId_uses_second_component_witness :
    findRequestByRequestId { verifyRequests := [vrA], issueRequests := [] }
        "verify:a" =
      componentLookup { verifyRequests := [vrA], issueRequests := [] }
        "verify" "a" ∧
    findRequestByRequestId { verifyRequests := [vrA], issueRequests := [] }
        "verify:a:b" =
      componentLookup { verifyRequests := [vrA], issueRequests := [] }
        "verify" "a" ∧
    findRequestByRequestId { verifyRequests := [vrA], issueRequests := [] }
        "bogus" = none :=
  findRequestByRequestId_uses_second_component
    { verifyRequests := [vrA], issueRequests := [] } "verify" "a" "b" "bogus"
    (by decide) (by decide) (by decide)

/-- Full case characterization of `decodeVerifyRequestToken`: it either fails
leaving the store untouched, or succeeds on an authenticated payload and a
resolved type, appending exactly the constructed record. -/
theorem decodeVerifyRequestToken_cases (orgs : List Organization)
    (types : List CredentialType) (st : Store) (jwt : Jwt) (now : Nat)
    (fu : String) :
    (∃ e, decodeVerifyRequestToken orgs types st jwt now fu =
      (.error e, st)) ∨
    (∃ p org ty,
      decodeAndVerifyJwt orgs jwt now = .ok (p, org) ∧
      types.find? (fun t =>
        decide (t.organization = org ∧ t.type = p.type)) = some ty ∧
      decodeVerifyRequestToken orgs types st jwt now fu =
        (.ok { uuid := fu, requestor := org, type := ty,
               callbackUrl := p.callbackUrl },
         { st with verifyRequests := st.verifyRequests ++
             [{ uuid := fu, requestor := org, type := ty,
                callbackUrl := p.callbackUrl }] })) := by
  cases hj : decodeAndVerifyJwt orgs jwt now with
  | error e =>
    exact .inl ⟨.invalidJwt e, by simp only [decodeVerifyRequestToken, hj]⟩
  | ok pr =>
    obtain ⟨p, org⟩ := pr
    cases hf : types.find? (fun t =>
        decide (t.organization = org ∧ t.type = p.type)) with
    | none =>
      exact .inl ⟨.typeNotFound, by simp only [decodeVerifyRequestToken, hj, hf]⟩
    | some ty =>
      exact .inr ⟨p, org, ty, rfl, hf,
        by simp only [decodeVerifyRequestToken, hj, hf]⟩

/-- Full case characterization of `decodeIssueRequestToken`, mirroring the
verify one and carrying the copied `data` field. -/
theorem decodeIssueRequestToken_cases (orgs : List Organization)
    (types : List CredentialType) (st : Store) (jwt : Jwt) (now : Nat)
    (fu : String) :
    (∃ e, decodeIssueRequestToken orgs types st jwt now fu =
      (.error e, st)) ∨
    (∃ p org ty,
      decodeAndVerifyJwt orgs jwt now = .ok (p, org) ∧
      types.find? (fun t =>
        decide (t.organization = org ∧ t.type = p.type)) = some ty ∧
      decodeIssueRequestToken orgs types st jwt now fu =
        (.ok { uuid := fu, requestor := org, type := ty,
               callbackUrl := p.callbackUrl, data := p.data },
         { st with issueRequests := st.issueRequests ++
             [{ uuid := fu, requestor := org, type := ty,
                callbackUrl := p.callbackUrl, data := p.data }] })) := by
  cases hj : decodeAndVerifyJwt orgs jwt now with
  | error e =>
    exact .inl ⟨.invalidJwt e, by simp only [decodeIssueRequestToken, hj]⟩
  | ok pr =>
    obtain ⟨p, org⟩ := pr
    cases hf : types.find? (fun t =>
        decide (t.organization = org ∧ t.type = p.type)) with
    | none =>
      exact .inl ⟨.typeNotFound, by simp only [decodeIssueRequestToken, hj, hf]⟩
    | some ty =>
      exact .inr ⟨p, org, ty, rfl, hf,
        by simp only [decodeIssueRequestToken, hj, hf]⟩

/-- Claim C4: for the uuid `u` of a VerifyRequest just created by
`decodeVerifyRequestToken` (a server-generated uuid: non-empty, colon-free,
and fresh for both stores), `findRequestByRequestId` on `"verify:" ++ u`
returns that same record, while `"issue:" ++ u` returns not-found — the type
tags are not interchangeable between the two stores. -/
theorem resolveByRequestId_roundtrips_created_verify_request
    (orgs : List Organization) (types : List CredentialType) (st st' : Store)
    (jwt : Jwt) (now : Nat) (u : String) (vr : CredentialVerifyRequest)
    (h : decodeVerifyRequestToken orgs types st jwt now u = (.ok vr, st'))
    (hcolon : ∀ c ∈ u.data, c ≠ ':') (hne : u ≠ "")
    (hfresh : ∀ x ∈ st.verifyRequests, x.uuid ≠ u)
    (hissue : ∀ x ∈ st.issueRequests, x.uuid ≠ u) :
    findRequestByRequestId st' ("verify:" ++ u) =
      some (FoundRequest.verify vr) ∧
    findRequestByRequestId st' ("issue:" ++ u) = none := by
  rcases decodeVerifyRequestToken_cases orgs types st jwt now u with
    ⟨e, he⟩ | ⟨p, org, ty, hj, hf, hok⟩
  · rw [he] at h
    simp at h
  · rw [hok] at h
    simp only [Prod.mk.injEq, Except.ok.injEq] at h
    obtain ⟨hvr, hst⟩ := h
    subst hst
    have hcat1 : ("verify:" : String) ++ u = "verify" ++ ":" ++ u := by
      have : ("verify:" : String) = "verify" ++ ":" := by decide
      rw [this]
    have hcat2 : ("issue:" : String) ++ u = "issue" ++ ":" ++ u := by
      have : ("issue:" : String) = "issue" ++ ":" := by decide
      rw [this]
    have hvsplit := findRequestByRequestId_of_split
      { st with verifyRequests := st.verifyRequests ++
          [{ uuid := u, requestor := org, type := ty,
             callbackUrl := p.callbackUrl }] }
      ("verify" ++ ":" ++ u) "verify" u []
      (jsSplitColon_pair "verify" u (by decide) hcolon)
    have hisplit := findRequestByRequestId_of_split
      { st with verifyRequests := st.verifyRequests ++
          [{ uuid := u, requestor := org, type := ty,
             callbackUrl := p.callbackUrl }] }
      ("issue" ++ ":" ++ u) "issue" u []
      (jsSplitColon_pair "issue" u (by decide) hcolon)
    have hvne : ("verify" : String) ≠ "" := by decide
    have hine : ("issue" : String) ≠ "" := by decide
    have hiv : ("issue" : String) ≠ "verify" := by decide
    have hpred : ∀ x ∈ st.verifyRequests,
        (fun r => decide (r.uuid = u)) x = false := by
      intro x hx
      simp [hfresh x hx]
    have hvfind := find?_append_of_false (fun r => decide (r.uuid = u))
      st.verifyRequests
      [{ uuid := u, requestor := org, type := ty,
         callbackUrl := p.callbackUrl }] hpred
    have hifind : st.issueRequests.find? (fun r => decide (r.uuid = u)) =
        none := List.find?_eq_none.mpr (by
      intro x hx
      simp [hissue x hx])
    constructor
    · rw [hcat1, hvsplit]
      simp [componentLookup, CredentialVerifyRequest.requestType, hvne, hne,
        findVerifyRequestByIdentifier, hvfind, ← hvr]
    · rw [hcat2, hisplit]
      simp [componentLookup, CredentialVerifyRequest.requestType,
        CredentialIssueRequest.requestType, hine, hiv, hne,
        findIssueRequestByIdentifier, hifind]

/-- Closed witness for C4: a concrete successful creation followed by the two
lookups. -/
theorem resolveByRequestId_roundtrips_created_verify_request_witness :
    findRequestByRequestId
        (decodeVerifyRequestToken [orgA] [tyA] emptyStore jwtA 0 "u1").2
        "verify:u1" =
      some (FoundRequest.verify
        { uuid := "u1", requestor := orgA, type := tyA,
          callbackUrl := "https://cb" }) ∧
    findRequestByRequestId
        (decodeVerifyRequestToken [orgA] [tyA] emptyStore jwtA 0 "u1").2
        "issue:u1" = none :=
  resolveByRequestId_roundtrips_created_verify_request [orgA] [tyA]
    emptyStore (decodeVerifyRequestToken [orgA] [tyA] emptyStore jwtA 0 "u1").2
    jwtA 0 "u1"
    { uuid := "u1", requestor := orgA, type := tyA,
      callbackUrl := "https://cb" }
    rfl (by decide) (by decide) (by decide) (by decide)

/-- Successful authentication: a token correctly signed with the secret of
the organization its issuer claim resolves to, carrying a numeric `iat` less
than 300 seconds old, decodes to its payload and that organization. -/
theorem decodeAndVerifyJwt_ok (orgs : List Organization) (org : Organization)
    (p : JwtPayload) (now iat : Nat) (hiss : p.iss = some org.uuid)
    (hne : org.uuid ≠ "")
    (hlook : orgs.find? (fun o => decide (o.uuid = org.uuid)) = some org)
    (hiat : p.iat = some iat) (hfresh : now < iat + JWT_MAX_AGE) :
    decodeAndVerifyJwt orgs
      (Jwt.token (JwtBody.obj p) ⟨org.sharedSecret, JwtBody.obj p⟩) now =
      .ok (p, org) := by
  have hemp : org.uuid.isEmpty = false :=
    Bool.eq_false_iff.mpr (fun hcontra =>
      hne ((String.isEmpty_iff org.uuid).mp hcontra))
  simp [decodeAndVerifyJwt, decodeAndVerifyJwtInner, issOf, hiss, hemp,
    hlook, hiat, Nat.not_le.mpr hfresh]

/-- Claim C2: for every organization known to the Trust Store and every
fresh, correctly signed payload naming it as issuer and declaring a type it
owns, `decodeVerifyRequestToken` persists and returns a VerifyRequest whose
`requestor` is that organization, whose `callbackUrl` is the payload's, and
whose `type` is the CredentialType resolved from (organization, payload
type); `decodeIssueRequestToken` additionally copies the payload's `data`
verbatim. -/
theorem acceptToken_roundtrips_payload (orgs : List Organization)
    (types : List CredentialType) (st : Store) (org : Organization)
    (p : JwtPayload) (ty : CredentialType) (now iat : Nat) (fu : String)
    (hiss : p.iss = some org.uuid) (hne : org.uuid ≠ "")
    (hlook : orgs.find? (fun o => decide (o.uuid = org.uuid)) = some org)
    (hiat : p.iat = some iat) (hfresh : now < iat + JWT_MAX_AGE)
    (htype : types.find? (fun t =>
      decide (t.organization = org ∧ t.type = p.type)) = some ty) :
    decodeVerifyRequestToken orgs types st
        (Jwt.token (JwtBody.obj p) ⟨org.sharedSecret, JwtBody.obj p⟩)
        now fu =
      (.ok { uuid := fu, requestor := org, type := ty,
             callbackUrl := p.callbackUrl },
       { st with verifyRequests := st.verifyRequests ++
           [{ uuid := fu, requestor := org, type := ty,
              callbackUrl := p.callbackUrl }] }) ∧
    decodeIssueRequestToken orgs types st
        (Jwt.token (JwtBody.obj p) ⟨org.sharedSecret, JwtBody.obj p⟩)
        now fu =
      (.ok { uuid := fu, requestor := org, type := ty,
             callbackUrl := p.callbackUrl, data := p.data },
       { st with issueRequests := st.issueRequests ++
           [{ uuid := fu, requestor := org, type := ty,
              callbackUrl := p.callbackUrl, data := p.data }] }) := by
  have hj := decodeAndVerifyJwt_ok orgs org p now iat hiss hne hlook hiat
    hfresh
  constructor
  · simp only [decodeVerifyRequestToken, hj, htype]
  · simp only [decodeIssueRequestToken, hj, htype]

/-- Closed witness for C2 at a concrete organization, payload and type. -/
theorem acceptToken_roundtrips_payload_witness :
    decodeVerifyRequestToken [orgA] [tyA] emptyStore jwtA 0 "u1" =
      (.ok { uuid := "u1", requestor := orgA, type := tyA,
             callbackUrl := "https://cb" },
       ⟨[⟨"u1", orgA, tyA, "https://cb"⟩], []⟩) ∧
    decodeIssueRequestToken [orgA] [tyA] emptyStore jwtA 0 "u1" =
      (.ok { uuid := "u1", requestor := orgA, type := tyA,
             callbackUrl := "https://cb", data := "sample" },
       ⟨[], [⟨"u1", orgA, tyA, "https://cb", "sample"⟩]⟩) :=
  acceptToken_roundtrips_payload [orgA] [tyA] emptyStore orgA payloadA tyA
    0 0 "u1" rfl (by decide) (by decide) rfl (by decide) (by decide)

/-- Claim C3: on every failure of `decodeVerifyRequestToken` or
`decodeIssueRequestToken` — malformed token, unknown issuer, invalid
signature, expired token, or unknown credential type — the request store is
returned unchanged: no partial or complete record is created on any failure
path. -/
theorem acceptToken_failure_leaves_store_unchanged (orgs : List Organization)
    (types : List CredentialType) (st : Store) (jwt : Jwt) (now : Nat)
    (fu : String) :
    (∀ e, (decodeVerifyRequestToken orgs types st jwt now fu).1 = .error e →
      (decodeVerifyRequestToken orgs types st jwt now fu).2 = st) ∧
    (∀ e, (decodeIssueRequestToken orgs types st jwt now fu).1 = .error e →
      (decodeIssueRequestToken orgs types st jwt now fu).2 = st) := by
  constructor
  · intro e he
    rcases decodeVerifyRequestToken_cases orgs types st jwt now fu with
      ⟨f, hf⟩ | ⟨p, org, ty, _, _, hok⟩
    · rw [hf]
    · rw [hok] at he
      simp at he
  · intro e he
    rcases decodeIssueRequestToken_cases orgs types st jwt now fu with
      ⟨f, hf⟩ | ⟨p, org, ty, _, _, hok⟩
    · rw [hf]
    · rw [hok] at he
      simp at he

/-- Closed witness for C3: the unparseable token fails and the store comes
back unchanged. -/
theorem acceptToken_failure_leaves_store_unchanged_witness :
    (decodeVerifyRequestToken [orgA] [tyA] emptyStore Jwt.malformed 0
      "u1").2 = emptyStore :=
  (acceptToken_failure_leaves_store_unchanged [orgA] [tyA] emptyStore
    Jwt.malformed 0 "u1").1
    (.invalidJwt ⟨"Could not decode request JWT"⟩) rfl

/-- Claim C8: every record created by a token-accepting operation satisfies
the ownership invariant: the stored CredentialType's `organization` is the
record's `requestor`. -/
theorem createdRequest_type_owned_by_requestor (orgs : List Organization)
    (types : List CredentialType) (st : Store) (jwt : Jwt) (now : Nat)
    (fu : String) :
    (∀ vr st', decodeVerifyRequestToken orgs types st jwt now fu =
      (.ok vr, st') → vr.type.organization = vr.requestor) ∧
    (∀ ir st', decodeIssueRequestToken orgs types st jwt now fu =
      (.ok ir, st') → ir.type.organization = ir.requestor) := by
  constructor
  · intro vr st' h
    rcases decodeVerifyRequestToken_cases orgs types st jwt now fu with
      ⟨f, hf⟩ | ⟨p, org, ty, _, htype, hok⟩
    · rw [hf] at h
      simp at h
    · rw [hok] at h
      simp only [Prod.mk.injEq, Except.ok.injEq] at h
      obtain ⟨hvr, _⟩ := h
      have hp := List.find?_some htype
      have hp2 := of_decide_eq_true hp
      rw [← hvr]
      exact hp2.1
  · intro ir st' h
    rcases decodeIssueRequestToken_cases orgs types st jwt now fu with
      ⟨f, hf⟩ | ⟨p, org, ty, _, htype, hok⟩
    · rw [hf] at h
      simp at h
    · rw [hok] at h
      simp only [Prod.mk.injEq, Except.ok.injEq] at h
      obtain ⟨hir, _⟩ := h
      have hp := List.find?_some htype
      have hp2 := of_decide_eq_true hp
      rw [← hir]
      exact hp2.1

/-- Closed witness for C8 at the concrete successful creation. -/
theorem createdRequest_type_owned_by_requestor_witness :
    ({ uuid := "u1", requestor := orgA, type := tyA,
       callbackUrl := "https://cb" } :
      CredentialVerifyRequest).type.organization =
    ({ uuid := "u1", requestor := orgA, type := tyA,
       callbackUrl := "https://cb" } :
      CredentialVerifyRequest).requestor :=
  (createdRequest_type_owned_by_requestor [orgA] [tyA] emptyStore jwtA 0
    "u1").1
    { uuid := "u1", requestor := orgA, type := tyA,
      callbackUrl := "https://cb" }
    (decodeVerifyRequestToken [orgA] [tyA] emptyStore jwtA 0 "u1").2 rfl

/-- Claim C6: with `maxAge` fixed at `JWT_MAX_AGE = 300` seconds, a
correctly signed token issued more than 300 seconds before verification time
is rejected with the generic error, and one issued 299 seconds before
verification time is accepted (all other checks passing). -/
theorem maxAge_boundary (orgs : List Organization) (org : Organization)
    (p : JwtPayload) (now iat : Nat) (hiss : p.iss = some org.uuid)
    (hne : org.uuid ≠ "")
    (hlook : orgs.find? (fun o => decide (o.uuid = org.uuid)) = some org)
    (hiat : p.iat = some iat) :
    (now > iat + 300 →
      decodeAndVerifyJwt orgs
        (Jwt.token (JwtBody.obj p) ⟨org.sharedSecret, JwtBody.obj p⟩) now =
        .error ⟨"Could not decode request JWT"⟩) ∧
    decodeAndVerifyJwt orgs
        (Jwt.token (JwtBody.obj p) ⟨org.sharedSecret, JwtBody.obj p⟩)
        (iat + 299) = .ok (p, org) := by
  have hemp : org.uuid.isEmpty = false :=
    Bool.eq_false_iff.mpr (fun hcontra =>
      hne ((String.isEmpty_iff org.uuid).mp hcontra))
  constructor
  · intro hold
    have hexp : iat + JWT_MAX_AGE ≤ now := by
      simp only [JWT_MAX_AGE]
      omega
    simp [decodeAndVerifyJwt, decodeAndVerifyJwtInner, issOf, hiss, hemp,
      hlook, hiat, hexp]
  · exact decodeAndVerifyJwt_ok orgs org p (iat + 299) iat hiss hne hlook
      hiat (by simp only [JWT_MAX_AGE]; omega)

/-- Closed witness for C6: `orgA`'s token with `iat = 0` is rejected at time
301 and accepted at time 299. -/
theorem maxAge_boundary_witness :
    decodeAndVerifyJwt [orgA] jwtA 301 =
      .error ⟨"Could not decode request JWT"⟩ ∧
    decodeAndVerifyJwt [orgA] jwtA 299 = .ok (payloadA, orgA) :=
  ⟨(maxAge_boundary [orgA] orgA payloadA 301 0 rfl (by decide) (by decide)
      rfl).1 (by decide),
   (maxAge_boundary [orgA] orgA payloadA 301 0 rfl (by decide) (by decide)
      rfl).2⟩

/-- A payload naming `orgC` (which shares `orgA`'s secret) as issuer. -/
def payloadC : JwtPayload :=
  { iss := some "org-c", iat := some 0, type := "passport",
    callbackUrl := "https://cb", data := "sample" }

/-- A token over `payloadC` whose signature was produced with `orgA`'s
shared secret. -/
def jwtForgedC : Jwt :=
  Jwt.token (JwtBody.obj payloadC)
    ⟨orgA.sharedSecret, JwtBody.obj payloadC⟩

/-- Claim C1 counterexample: with both organizations known to the Trust
Store and sharing one secret, a token signed with `orgA`'s secret but naming
`orgC` as issuer is ACCEPTED by `decodeVerifyRequestToken` and a request
record IS created — the claim's universal rejection fails when the two
organizations' secrets coincide. -/
theorem crossIssuerForgery_accepted_cex :
    orgA.sharedSecret = orgC.sharedSecret ∧ orgA ≠ orgC ∧
    (decodeVerifyRequestToken [orgA, orgC] [tyC] emptyStore jwtForgedC 0
      "u1").1 = .ok ⟨"u1", orgC, tyC, "https://cb"⟩ ∧
    (decodeVerifyRequestToken [orgA, orgC] [tyC] emptyStore jwtForgedC 0
      "u1").2 ≠ emptyStore := by
  refine ⟨rfl, by decide, rfl, by decide⟩

/-- Claim C1 (amended): for organizations A and B whose shared secrets
differ, a token whose signature was produced with A's secret but whose
issuer claim names (and resolves to) B is rejected by `decodeAndVerifyJwt`
with the generic invalid-token error, and both token-accepting operations
fail leaving the store unchanged: no request record is created. -/
theorem crossIssuerForgery_rejected (orgs : List Organization)
    (types : List CredentialType) (st : Store) (now : Nat) (fu : String)
    (A B : Organization) (body : JwtBody)
    (hsec : A.sharedSecret ≠ B.sharedSecret)
    (hiss : issOf body = some B.uuid)
    (hlook : orgs.find? (fun o => decide (o.uuid = B.uuid)) = some B) :
    decodeAndVerifyJwt orgs (Jwt.token body ⟨A.sharedSecret, body⟩) now =
      .error ⟨"Could not decode request JWT"⟩ ∧
    decodeVerifyRequestToken orgs types st
        (Jwt.token body ⟨A.sharedSecret, body⟩) now fu =
      (.error (.invalidJwt ⟨"Could not decode request JWT"⟩), st) ∧
    decodeIssueRequestToken orgs types st
        (Jwt.token body ⟨A.sharedSecret, body⟩) now fu =
      (.error (.invalidJwt ⟨"Could not decode request JWT"⟩), st) := by
  have hsig : (⟨A.sharedSecret, body⟩ : Sig) ≠ ⟨B.sharedSecret, body⟩ := by
    intro hc
    exact hsec (congrArg Sig.secret hc)
  have h1 : decodeAndVerifyJwt orgs
      (Jwt.token body ⟨A.sharedSecret, body⟩) now =
      .error ⟨"Could not decode request JWT"⟩ := by
    simp [decodeAndVerifyJwt, decodeAndVerifyJwtInner, hiss, hlook, hsig]
  exact ⟨h1, by simp only [decodeVerifyRequestToken, h1],
    by simp only [decodeIssueRequestToken, h1]⟩

/-- A payload naming `orgB` (whose secret differs from `orgA`'s) as
issuer. -/
def payloadB : JwtPayload :=
  { iss := some "org-b", iat := some 0, type := "passport",
    callbackUrl := "https://cb", data := "sample" }

/-- Closed witness for the amended C1: `orgA`-signed token claiming `orgB`
is rejected and creates nothing. -/
theorem crossIssuerForgery_rejected_witness :
    decodeAndVerifyJwt [orgA, orgB]
        (Jwt.token (JwtBody.obj payloadB)
          ⟨orgA.sharedSecret, JwtBody.obj payloadB⟩) 0 =
      .error ⟨"Could not decode request JWT"⟩ ∧
    decodeVerifyRequestToken [orgA, orgB] [tyA] emptyStore
        (Jwt.token (JwtBody.obj payloadB)
          ⟨orgA.sharedSecret, JwtBody.obj payloadB⟩) 0 "u1" =
      (.error (.invalidJwt ⟨"Could not decode request JWT"⟩),
        emptyStore) := by
  have h := crossIssuerForgery_rejected [orgA, orgB] [tyA] emptyStore 0 "u1"
    orgA orgB (JwtBody.obj payloadB) (by decide) (by decide) (by decide)
  exact ⟨h.1, h.2.1⟩

/-- A token whose issuer claim matches no known organization. -/
def jwtUnknownIss : Jwt :=
  Jwt.token
    (JwtBody.obj
      { iss := some "org-x", iat := some 0, type := "passport",
        callbackUrl := "https://cb", data := "sample" })
    ⟨"secret-a", JwtBody.obj
      { iss := some "org-x", iat := some 0, type := "passport",
        callbackUrl := "https://cb", data := "sample" }⟩

/-- A token naming `orgA` but signed with the wrong secret. -/
def jwtBadSig : Jwt :=
  Jwt.token (JwtBody.obj payloadA) ⟨"wrong-secret", JwtBody.obj payloadA⟩

/-- Claim C5 counterexample: the malformed-token, unknown-issuer and
invalid-signature conditions are distinct inside the `try` block, yet all
three surface to the caller as one identical generic `InvalidRequestJWT` —
`MalformedToken` and `UnknownIssuer` are NOT distinct caller-visible kinds. -/
theorem jwtErrors_not_distinct_cex :
    decodeAndVerifyJwtInner [orgA] Jwt.malformed 0 = .error .malformed ∧
    decodeAndVerifyJwtInner [orgA] jwtUnknownIss 0 =
      .error .unknownIssuer ∧
    decodeAndVerifyJwtInner [orgA] jwtBadSig 0 = .error .badSignature ∧
    decodeAndVerifyJwt [orgA] Jwt.malformed 0 =
      decodeAndVerifyJwt [orgA] jwtUnknownIss 0 ∧
    decodeAndVerifyJwt [orgA] jwtUnknownIss 0 =
      decodeAndVerifyJwt [orgA] jwtBadSig 0 := by
  refine ⟨rfl, rfl, rfl, rfl, rfl⟩

/-- Claim C5 (amended): every failure condition of `decodeAndVerifyJwt` —
malformed token, unknown issuer, invalid signature, missing `iat`, expired
token, string payload — is collapsed by the catch-all into the single
generic `InvalidRequestJWT('Could not decode request JWT')`; no distinct
error kinds reach the caller from this function. -/
theorem jwtFailures_collapsed_to_generic (orgs : List Organization)
    (jwt : Jwt) (now : Nat) (f : JwtFailure)
    (h : decodeAndVerifyJwtInner orgs jwt now = .error f) :
    decodeAndVerifyJwt orgs jwt now =
      .error ⟨"Could not decode request JWT"⟩ := by
  simp [decodeAndVerifyJwt, h]

/-- Closed witness for the amended C5 at the unparseable token. -/
theorem jwtFailures_collapsed_to_generic_witness :
    decodeAndVerifyJwt [orgA] Jwt.malformed 0 =
      .error ⟨"Could not decode request JWT"⟩ :=
  jwtFailures_collapsed_to_generic [orgA] Jwt.malformed 0 .malformed rfl

/-- Claim C9 (the code diverges): when the connector's disclosure-handling
step fails, `handleCredentialVerifyDisclosure` propagates the failure
unchanged — no outcome token is encoded with a failure status and no
notification is delivered to the session; the spec requires the session to
still be notified of the terminal outcome. -/
theorem disclosureFailure_produces_no_notification
    (vr : CredentialVerifyRequest) (connectorName e : String) :
    handleCredentialVerifyDisclosure vr connectorName (.error e) =
      .error e := rfl

end Eassi
